import Mathlib

/-!
Shallow embedding of the computational core of `dashboard.py`
(RealTime-Stock-Dashboard): the fetch/enrich pipeline over OHLCV bars,
the synthetic price jitter, the trend label, the keyword news sentiment
classifier, the price alert check, and the per-tick orchestration.

Prices are modelled as rationals; the undefined (NaN) entries of the
derived pandas columns are modelled as `none` in `List (Option ℚ)`.
The random draw `np.random.uniform(-0.001, 0.001)` of the jitter step is
modelled as an explicit parameter `u`.
-/

/-- The raw OHLCV frame returned by `yf.download` (one list per column,
all of the same length; one index position per bar). -/
structure RawSeries where
  Open : List ℚ
  High : List ℚ
  Low : List ℚ
  Close : List ℚ
  Volume : List ℕ
  deriving Repr, DecidableEq

/-- The frame after `fetch_data` attached the three derived columns
`% Change`, `MA20`, `MA50` (percentChange models the `% Change` column). -/
structure EnrichedSeries where
  Open : List ℚ
  High : List ℚ
  Low : List ℚ
  Close : List ℚ
  Volume : List ℕ
  percentChange : List (Option ℚ)
  MA20 : List (Option ℚ)
  MA50 : List (Option ℚ)
  deriving Repr, DecidableEq

/-- `Series.pct_change()` on the tail of the column: each entry is
`(c - prev) / prev` for the previous value `prev`. -/
def pandasPctChangeAux (prev : ℚ) : List ℚ → List (Option ℚ)
  | [] => []
  | c :: cs => some ((c - prev) / prev) :: pandasPctChangeAux c cs

/-- Semantics of pandas `Series.pct_change()`: NaN at position 0,
`(c[i] - c[i-1]) / c[i-1]` at positions `i > 0`. -/
def pandasPctChange : List ℚ → List (Option ℚ)
  | [] => []
  | c :: cs => none :: pandasPctChangeAux c cs

/-- Semantics of pandas `Series.rolling(w).mean()`, accumulating the
already-seen prefix: an entry is NaN until `w` samples have been seen,
then the mean of the trailing `w` samples. -/
def rollingMeanAux (w : ℕ) (seen : List ℚ) : List ℚ → List (Option ℚ)
  | [] => []
  | x :: rest =>
      (if seen.length + 1 < w then none
       else some (((seen ++ [x]).drop (seen.length + 1 - w)).sum / (w : ℚ))) ::
      rollingMeanAux w (seen ++ [x]) rest

/-- `Series.rolling(w).mean()` over a whole column. -/
def rollingMean (w : ℕ) (xs : List ℚ) : List (Option ℚ) :=
  rollingMeanAux w [] xs

/-- `fetch_data` (dashboard.py lines 38-45): download the bars and attach
`df["% Change"] = df["Close"].pct_change() * 100`,
`df["MA20"] = df["Close"].rolling(20).mean()`,
`df["MA50"] = df["Close"].rolling(50).mean()`. -/
def fetch_data (bars : RawSeries) : EnrichedSeries :=
  { Open := bars.Open
    High := bars.High
    Low := bars.Low
    Close := bars.Close
    Volume := bars.Volume
    percentChange := (pandasPctChange bars.Close).map (Option.map (fun r => r * 100))
    MA20 := rollingMean 20 bars.Close
    MA50 := rollingMean 50 bars.Close }

/-- The jitter step (dashboard.py lines 66-69), with the random draw `u`
passed explicitly:
`simulated_close = last_close * (1 + u)` overwrites the final close, then
the final `% Change` entry is overwritten with
`(simulated_close - data["Close"].iloc[0]) / data["Close"].iloc[0] * 100`,
where `iloc[0]` is read from the already-mutated frame. -/
def simulateJitter (df : EnrichedSeries) (u : ℚ) : EnrichedSeries :=
  let last_close := df.Close.getLastD 0
  let simulated_close := last_close * (1 + u)
  let newClose := df.Close.set (df.Close.length - 1) simulated_close
  let first_close := newClose.headD 0
  { df with
    Close := newClose
    percentChange := df.percentChange.set (df.percentChange.length - 1)
      (some ((simulated_close - first_close) / first_close * 100)) }

/-- IEEE comparison of two possibly-NaN values, as Python evaluates
`a > b` on floats: any comparison involving NaN is False. -/
def nanGt : Option ℚ → Option ℚ → Bool
  | some x, some y => decide (y < x)
  | some _, none => false
  | none, _ => false

/-- The trend label (dashboard.py line 78):
`"Uptrend 🟢" if data["MA20"].iloc[-1] > data["MA50"].iloc[-1] else "Downtrend 🔴"`. -/
def trend (df : EnrichedSeries) : String :=
  if nanGt (df.MA20.getLastD none) (df.MA50.getLastD none) then "Uptrend 🟢"
  else "Downtrend 🔴"

/-- The positive keyword set of `sentiment_emoji`. -/
def positive_keywords : List String :=
  ["surge", "rise", "gain", "beat", "up", "profit"]

/-- The negative keyword set of `sentiment_emoji`. -/
def negative_keywords : List String :=
  ["fall", "drop", "loss", "decline", "down", "miss"]

/-- Python's substring containment `pat in s` over character lists. -/
def isSubstrOf (pat : List Char) : List Char → Bool
  | [] => pat.isEmpty
  | c :: rest => pat.isPrefixOf (c :: rest) || isSubstrOf pat rest

/-- `sentiment_emoji` (dashboard.py lines 48-57): lowercase the title,
return 🟢 if any positive keyword occurs as a substring, otherwise 🔴 if
any negative keyword occurs, otherwise ⚪. -/
def sentiment_emoji (title : List Char) : String :=
  let title_lower := title.map Char.toLower
  if positive_keywords.any (fun word => isSubstrOf word.toList title_lower) then "🟢"
  else if negative_keywords.any (fun word => isSubstrOf word.toList title_lower) then "🔴"
  else "⚪"

/-- The price alert condition (dashboard.py line 134):
`target_price > 0 and data["Close"].iloc[-1] >= target_price`. -/
def priceAlertCrossed (target_price current_price : ℚ) : Bool :=
  decide (0 < target_price) && decide (target_price ≤ current_price)

/-- One news record as returned by the news provider; a field is `none`
when the corresponding dict key is absent. -/
structure NewsArticle where
  title : Option String
  link : Option String
  publisher : Option String
  providerPublishTime : Option ℕ
  deriving Repr, DecidableEq

/-- The filtering loop (dashboard.py lines 83-87): keep exactly the
articles that have both a title and a link. -/
def news_data (raw : List NewsArticle) : List NewsArticle :=
  raw.filter (fun article => article.title.isSome && article.link.isSome)

/-- One line of the scrolling ticker (dashboard.py line 91):
the sentiment emoji followed by the title. -/
def renderNewsLine (article : NewsArticle) : String :=
  sentiment_emoji (article.title.getD "").toList ++ " " ++ article.title.getD ""

/-- `latest_news` (dashboard.py line 91): the scrolling ticker renders
the first 5 filtered articles. -/
def latest_news (nd : List NewsArticle) : List String :=
  (nd.take 5).map renderNewsLine

/-- The news tab (dashboard.py line 159) iterates over `news_data[:10]`. -/
def newsTabArticles (nd : List NewsArticle) : List NewsArticle :=
  nd.take 10

/-- The scalar insight snapshot shown in the sidebar each tick. -/
structure Insights where
  currentPrice : ℚ
  dayChange : Option ℚ
  volume : ℕ
  week52High : Option ℚ
  week52Low : Option ℚ
  trendLabel : String
  deriving Repr, DecidableEq

/-- Outcome of one refresh tick: either the empty-data warning with no
downstream output, or the rendered insights, chart frame, ticker lines,
news-tab articles and alert flag. -/
inductive TickOutput where
  | dataUnavailable : TickOutput
  | rendered (insights : Insights) (chart : EnrichedSeries)
      (tickerLines : List String) (newsTab : List NewsArticle)
      (alert : Bool) : TickOutput
  deriving Repr, DecidableEq

/-- The insights carried by a tick outcome, if any. -/
def TickOutput.insightsOf : TickOutput → Option Insights
  | .dataUnavailable => none
  | .rendered i _ _ _ _ => some i

/-- The chart frame carried by a tick outcome, if any. -/
def TickOutput.chartOf : TickOutput → Option EnrichedSeries
  | .dataUnavailable => none
  | .rendered _ c _ _ _ => some c

/-- One refresh tick (dashboard.py lines 60-168): fetch and enrich the
bars; if the frame is empty, warn and stop; otherwise jitter the last
close, extract the insights, classify and truncate the news, and render. -/
def runTick (bars : RawSeries) (u : ℚ) (hi lo : Option ℚ)
    (rawNews : List NewsArticle) (target_price : ℚ) : TickOutput :=
  let data := fetch_data bars
  if data.Close.isEmpty then TickOutput.dataUnavailable
  else
    let jittered := simulateJitter data u
    let nd := news_data rawNews
    TickOutput.rendered
      { currentPrice := jittered.Close.getLastD 0
        dayChange := jittered.percentChange.getLastD none
        volume := jittered.Volume.getLastD 0
        week52High := hi
        week52Low := lo
        trendLabel := trend jittered }
      jittered
      (latest_news nd)
      (newsTabArticles nd)
      (priceAlertCrossed target_price (jittered.Close.getLastD 0))

/-- A constant-price series of `n` bars, used as a concrete input. -/
def constSeries (n : ℕ) : RawSeries :=
  { Open := List.replicate n 1
    High := List.replicate n 1
    Low := List.replicate n 1
    Close := List.replicate n 1
    Volume := List.replicate n 1 }

/-- C7: the price alert signals iff the threshold is strictly positive and
the current (post-jitter) price is at least the threshold; a zero
threshold never signals, whatever the price. -/
theorem price_alert_iff (target_price current_price : ℚ) :
    (priceAlertCrossed target_price current_price = true ↔
      0 < target_price ∧ target_price ≤ current_price) ∧
    priceAlertCrossed 0 current_price = false := by
  constructor
  · simp [priceAlertCrossed]
  · simp [priceAlertCrossed]

/-- C3: `sentiment_emoji` is a total function of the title: it returns 🟢
exactly when some positive keyword is a substring of the lowercased title
(positive wins any tie), 🔴 exactly when no positive but some negative
keyword matches, ⚪ exactly when neither set matches; the empty title is ⚪. -/
theorem sentiment_emoji_spec (title : List Char) :
    (sentiment_emoji title = "🟢" ↔
      ∃ word ∈ positive_keywords,
        isSubstrOf word.toList (title.map Char.toLower) = true) ∧
    (sentiment_emoji title = "🔴" ↔
      (¬ ∃ word ∈ positive_keywords,
          isSubstrOf word.toList (title.map Char.toLower) = true) ∧
      ∃ word ∈ negative_keywords,
        isSubstrOf word.toList (title.map Char.toLower) = true) ∧
    (sentiment_emoji title = "⚪" ↔
      (¬ ∃ word ∈ positive_keywords,
          isSubstrOf word.toList (title.map Char.toLower) = true) ∧
      ¬ ∃ word ∈ negative_keywords,
          isSubstrOf word.toList (title.map Char.toLower) = true) ∧
    sentiment_emoji ([] : List Char) = "⚪" := by
  have hgw : ("🟢" : String) ≠ "⚪" := by decide
  have hgr : ("🟢" : String) ≠ "🔴" := by decide
  have hrw : ("🔴" : String) ≠ "⚪" := by decide
  have hempty : sentiment_emoji ([] : List Char) = "⚪" := by decide
  by_cases hp : positive_keywords.any
      (fun word => isSubstrOf word.toList (title.map Char.toLower)) = true
  · have hgreen : sentiment_emoji title = "🟢" := by
      simp only [sentiment_emoji, hp, if_true]
    have hpE : ∃ word ∈ positive_keywords,
        isSubstrOf word.toList (title.map Char.toLower) = true := by
      simpa using List.any_eq_true.mp hp
    refine ⟨iff_of_true hgreen hpE, iff_of_false ?_ ?_, iff_of_false ?_ ?_, hempty⟩
    · rw [hgreen]; exact hgr
    · rintro ⟨hnp, -⟩; exact hnp hpE
    · rw [hgreen]; exact hgw
    · rintro ⟨hnp, -⟩; exact hnp hpE
  · have hpNE : ¬ ∃ word ∈ positive_keywords,
        isSubstrOf word.toList (title.map Char.toLower) = true := by
      intro hE; exact hp (List.any_eq_true.mpr (by simpa using hE))
    by_cases hn : negative_keywords.any
        (fun word => isSubstrOf word.toList (title.map Char.toLower)) = true
    · have hpF : (positive_keywords.any
          fun word => isSubstrOf word.toList (title.map Char.toLower)) = false :=
        Bool.eq_false_iff.mpr hp
      have hred : sentiment_emoji title = "🔴" := by
        simp only [sentiment_emoji]
        rw [hpF, hn]
        exact rfl
      have hnE : ∃ word ∈ negative_keywords,
          isSubstrOf word.toList (title.map Char.toLower) = true := by
        simpa using List.any_eq_true.mp hn
      refine ⟨iff_of_false ?_ hpNE, iff_of_true hred ⟨hpNE, hnE⟩,
        iff_of_false ?_ ?_, hempty⟩
      · rw [hred]; exact hgr.symm
      · rw [hred]; exact hrw
      · rintro ⟨-, hnn⟩; exact hnn hnE
    · have hnNE : ¬ ∃ word ∈ negative_keywords,
          isSubstrOf word.toList (title.map Char.toLower) = true := by
        intro hE; exact hn (List.any_eq_true.mpr (by simpa using hE))
      have hpF : (positive_keywords.any
          fun word => isSubstrOf word.toList (title.map Char.toLower)) = false :=
        Bool.eq_false_iff.mpr hp
      have hnF : (negative_keywords.any
          fun word => isSubstrOf word.toList (title.map Char.toLower)) = false :=
        Bool.eq_false_iff.mpr hn
      have hwhite : sentiment_emoji title = "⚪" := by
        simp only [sentiment_emoji]
        rw [hpF, hnF]
        exact rfl
      refine ⟨iff_of_false ?_ hpNE, iff_of_false ?_ ?_,
        iff_of_true hwhite ⟨hpNE, hnNE⟩, hempty⟩
      · rw [hwhite]; exact hgw.symm
      · rw [hwhite]; exact hrw.symm
      · rintro ⟨-, hnE⟩; exact hnNE hnE

/-- C1 counterexample: on a 5-bar series both moving averages are
undefined at the last position, yet the trend label is the comparison
outcome "Downtrend 🔴" — not an explicit insufficient-data policy value. -/
theorem trend_nan_counterexample :
    (fetch_data (constSeries 5)).MA20.getLastD none = none ∧
    (fetch_data (constSeries 5)).MA50.getLastD none = none ∧
    trend (fetch_data (constSeries 5)) = "Downtrend 🔴" := by
  decide

/-- The NaN-aware comparison is true exactly when both operands are
defined and the first strictly exceeds the second. -/
theorem nanGt_eq_true_iff (a b : Option ℚ) :
    nanGt a b = true ↔ ∃ x y, a = some x ∧ b = some y ∧ y < x := by
  cases a <;> cases b <;> simp [nanGt]

/-- The trend label reflects exactly the boolean NaN comparison of the
two moving averages at the last position. -/
theorem trend_eq_cases (df : EnrichedSeries) :
    (trend df = "Uptrend 🟢" ↔
      nanGt (df.MA20.getLastD none) (df.MA50.getLastD none) = true) ∧
    (trend df = "Downtrend 🔴" ↔
      nanGt (df.MA20.getLastD none) (df.MA50.getLastD none) = false) := by
  have hne : ("Uptrend 🟢" : String) ≠ "Downtrend 🔴" := by decide
  unfold trend
  cases hb : nanGt (df.MA20.getLastD none) (df.MA50.getLastD none) <;>
    simp [hne, hne.symm]

/-- C1 amended: the trend label is "Uptrend 🟢" exactly when both moving
averages are defined at the last position and MA20 exceeds MA50; in every
other case — including when either average is undefined, because the NaN
comparison evaluates to False — it is "Downtrend 🔴". -/
theorem trend_label_spec (df : EnrichedSeries) :
    (trend df = "Uptrend 🟢" ↔
      ∃ x y, df.MA20.getLastD none = some x ∧ df.MA50.getLastD none = some y ∧
        y < x) ∧
    (trend df = "Downtrend 🔴" ↔
      ¬ ∃ x y, df.MA20.getLastD none = some x ∧ df.MA50.getLastD none = some y ∧
        y < x) := by
  obtain ⟨h1, h2⟩ := trend_eq_cases df
  refine ⟨h1.trans (nanGt_eq_true_iff _ _), h2.trans ?_⟩
  rw [Bool.eq_false_iff]
  exact not_congr (nanGt_eq_true_iff _ _)

/-- Index characterization of the tail of `pct_change`: each entry divides
the difference from the previous value by the previous value. -/
theorem pandasPctChangeAux_getElem (cs : List ℚ) :
    ∀ (prev : ℚ) (i : ℕ), i < cs.length →
      (pandasPctChangeAux prev cs)[i]? =
        some (some ((cs.getD i 0 - (if i = 0 then prev else cs.getD (i - 1) 0)) /
          (if i = 0 then prev else cs.getD (i - 1) 0))) := by
  induction cs with
  | nil => intro prev i h; simp at h
  | cons c rest ih =>
    intro prev i h
    cases i with
    | zero => simp [pandasPctChangeAux]
    | succ j =>
      have hj : j < rest.length := by simpa using Nat.lt_of_succ_lt_succ h
      rw [pandasPctChangeAux, List.getElem?_cons_succ, ih c j hj]
      cases j with
      | zero => simp
      | succ k => simp

/-- Index characterization of pandas `pct_change`: NaN at position 0 and
the relative change from the previous entry afterwards. -/
theorem pandasPctChange_getElem (cs : List ℚ) (i : ℕ) (h : i < cs.length) :
    (pandasPctChange cs)[i]? =
      some (if i = 0 then none
        else some ((cs.getD i 0 - cs.getD (i - 1) 0) / cs.getD (i - 1) 0)) := by
  cases cs with
  | nil => simp at h
  | cons c rest =>
    cases i with
    | zero => simp [pandasPctChange]
    | succ j =>
      have hj : j < rest.length := by simpa using Nat.lt_of_succ_lt_succ h
      rw [pandasPctChange, List.getElem?_cons_succ,
        pandasPctChangeAux_getElem rest c j hj]
      cases j with
      | zero => simp
      | succ k => simp

/-- C5: for every series (a one-bar series included) the `% Change`
column of the enriched frame is undefined at position 0, and it equals
`(close[i] - close[i-1]) / close[i-1] * 100` at every later position,
before the jitter step. -/
theorem percent_change_spec (bars : RawSeries) (i : ℕ) :
    (bars.Close ≠ [] → (fetch_data bars).percentChange[0]? = some none) ∧
    (0 < i → i < bars.Close.length →
      (fetch_data bars).percentChange[i]? =
        some (some ((bars.Close.getD i 0 - bars.Close.getD (i - 1) 0) /
          bars.Close.getD (i - 1) 0 * 100))) := by
  constructor
  · intro hne
    have hp0 := pandasPctChange_getElem bars.Close 0 (List.length_pos.mpr hne)
    show ((pandasPctChange bars.Close).map (Option.map (fun r => r * 100)))[0]? = some none
    rw [List.getElem?_map, hp0]
    simp
  · intro h0 hi
    have hpi := pandasPctChange_getElem bars.Close i hi
    show ((pandasPctChange bars.Close).map (Option.map (fun r => r * 100)))[i]? = _
    rw [List.getElem?_map, hpi]
    simp [h0.ne']

/-- C5 witness: on a concrete one-bar series position 0 is undefined, and
on a concrete 3-bar series position 1 equals the adjacent-change formula. -/
theorem percent_change_spec_witness :
    (fetch_data (constSeries 1)).percentChange[0]? = some none ∧
    (fetch_data (constSeries 3)).percentChange[0]? = some none ∧
    (fetch_data (constSeries 3)).percentChange[1]? =
      some (some (((constSeries 3).Close.getD 1 0 - (constSeries 3).Close.getD 0 0) /
        (constSeries 3).Close.getD 0 0 * 100)) :=
  ⟨(percent_change_spec (constSeries 1) 0).1 (by decide),
   (percent_change_spec (constSeries 3) 1).1 (by decide),
   (percent_change_spec (constSeries 3) 1).2 (by decide) (by decide)⟩

/-- Index characterization of the rolling-mean accumulator: position `i`
is NaN until `w` samples have been seen (prefix included) and otherwise
averages the trailing `w` samples. -/
theorem rollingMeanAux_getElem (w : ℕ) (xs : List ℚ) :
    ∀ (seen : List ℚ) (i : ℕ), i < xs.length →
      (rollingMeanAux w seen xs)[i]? =
        some (if seen.length + i + 1 < w then none
          else some ((((seen ++ xs).take (seen.length + i + 1)).drop
              (seen.length + i + 1 - w)).sum / (w : ℚ))) := by
  induction xs with
  | nil => intro seen i h; simp at h
  | cons x rest ih =>
    intro seen i h
    cases i with
    | zero =>
      have htake : (seen ++ x :: rest).take (seen.length + 1) = seen ++ [x] := by
        simpa using @List.take_append ℚ seen (x :: rest) 1
      rw [rollingMeanAux, List.getElem?_cons_zero, Nat.add_zero, htake]
    | succ j =>
      have hj : j < rest.length := by simpa using Nat.lt_of_succ_lt_succ h
      rw [rollingMeanAux, List.getElem?_cons_succ, ih (seen ++ [x]) j hj]
      have hlen : (seen ++ [x]).length = seen.length + 1 := by simp
      have happ : (seen ++ [x]) ++ rest = seen ++ x :: rest := by simp
      rw [hlen, happ]
      have harith : seen.length + 1 + j + 1 = seen.length + (j + 1) + 1 := by omega
      rw [harith]

/-- Index characterization of `rolling(w).mean()` over a whole column. -/
theorem rollingMean_getElem (w : ℕ) (xs : List ℚ) (i : ℕ) (h : i < xs.length) :
    (rollingMean w xs)[i]? =
      some (if i + 1 < w then none
        else some (((xs.take (i + 1)).drop (i + 1 - w)).sum / (w : ℚ))) := by
  simpa using rollingMeanAux_getElem w xs [] i h

/-- C6: at every position of the enriched frame, MA20 is defined exactly
when at least 20 bars exist up to and including that position, and then
equals the mean of the trailing 20 closes (a window of exactly 20 bars);
likewise MA50 with 50 bars. -/
theorem moving_average_window_spec (bars : RawSeries) (i : ℕ)
    (hi : i < bars.Close.length) :
    (((fetch_data bars).MA20.getD i none).isSome = true ↔ 20 ≤ i + 1) ∧
    (20 ≤ i + 1 → (fetch_data bars).MA20.getD i none =
      some (((bars.Close.take (i + 1)).drop (i + 1 - 20)).sum / 20)) ∧
    (20 ≤ i + 1 → ((bars.Close.take (i + 1)).drop (i + 1 - 20)).length = 20) ∧
    (((fetch_data bars).MA50.getD i none).isSome = true ↔ 50 ≤ i + 1) ∧
    (50 ≤ i + 1 → (fetch_data bars).MA50.getD i none =
      some (((bars.Close.take (i + 1)).drop (i + 1 - 50)).sum / 50)) ∧
    (50 ≤ i + 1 → ((bars.Close.take (i + 1)).drop (i + 1 - 50)).length = 50) := by
  have h20 := rollingMean_getElem 20 bars.Close i hi
  have h50 := rollingMean_getElem 50 bars.Close i hi
  have e20 : (fetch_data bars).MA20.getD i none =
      (if i + 1 < 20 then none
        else some (((bars.Close.take (i + 1)).drop (i + 1 - 20)).sum / ((20 : ℕ) : ℚ))) := by
    show (rollingMean 20 bars.Close).getD i none = _
    rw [List.getD_eq_getElem?_getD, h20]
    rfl
  have e50 : (fetch_data bars).MA50.getD i none =
      (if i + 1 < 50 then none
        else some (((bars.Close.take (i + 1)).drop (i + 1 - 50)).sum / ((50 : ℕ) : ℚ))) := by
    show (rollingMean 50 bars.Close).getD i none = _
    rw [List.getD_eq_getElem?_getD, h50]
    rfl
  refine ⟨?_, ?_, ?_, ?_, ?_, ?_⟩
  · rw [e20]
    by_cases hlt : i + 1 < 20 <;> simp [hlt] <;> omega
  · intro hge
    rw [e20, if_neg (by omega)]
    norm_num
  · intro hge
    simp only [List.length_drop, List.length_take]
    omega
  · rw [e50]
    by_cases hlt : i + 1 < 50 <;> simp [hlt] <;> omega
  · intro hge
    rw [e50, if_neg (by omega)]
    norm_num
  · intro hge
    simp only [List.length_drop, List.length_take]
    omega

/-- C6 witness: on a concrete 60-bar constant series at position 55 both
moving-average windows are full, with the stated window lengths and means. -/
theorem moving_average_window_spec_witness :
    55 < (constSeries 60).Close.length ∧
    ((((fetch_data (constSeries 60)).MA20.getD 55 none).isSome = true ↔ 20 ≤ 55 + 1) ∧
    (20 ≤ 55 + 1 → (fetch_data (constSeries 60)).MA20.getD 55 none =
      some ((((constSeries 60).Close.take (55 + 1)).drop (55 + 1 - 20)).sum / 20)) ∧
    (20 ≤ 55 + 1 → (((constSeries 60).Close.take (55 + 1)).drop (55 + 1 - 20)).length = 20) ∧
    ((((fetch_data (constSeries 60)).MA50.getD 55 none).isSome = true ↔ 50 ≤ 55 + 1) ∧
    (50 ≤ 55 + 1 → (fetch_data (constSeries 60)).MA50.getD 55 none =
      some ((((constSeries 60).Close.take (55 + 1)).drop (55 + 1 - 50)).sum / 50)) ∧
    (50 ≤ 55 + 1 → (((constSeries 60).Close.take (55 + 1)).drop (55 + 1 - 50)).length = 50))) :=
  ⟨by decide, by
    have h := moving_average_window_spec (constSeries 60) 55 (by decide)
    exact ⟨h.1, h.2.1, h.2.2.1, h.2.2.2.1, h.2.2.2.2.1, h.2.2.2.2.2⟩⟩

/-- The tail of `pct_change` has the same length as its input. -/
theorem pandasPctChangeAux_length (cs : List ℚ) :
    ∀ prev : ℚ, (pandasPctChangeAux prev cs).length = cs.length := by
  induction cs with
  | nil => intro prev; rfl
  | cons c rest ih => intro prev; simp [pandasPctChangeAux, ih c]

/-- `pct_change` has the same length as its input column. -/
theorem pandasPctChange_length (cs : List ℚ) :
    (pandasPctChange cs).length = cs.length := by
  cases cs with
  | nil => rfl
  | cons c rest => simp [pandasPctChange, pandasPctChangeAux_length]

/-- The `% Change` column of the enriched frame has one entry per bar. -/
theorem fetch_percentChange_length (bars : RawSeries) :
    (fetch_data bars).percentChange.length = bars.Close.length := by
  simp [fetch_data, pandasPctChange_length]

/-- Updating the final entry of a non-empty list, then reading the final
entry, returns the updated value. -/
theorem getLastD_set_last {α : Type} (l : List α) (a d : α) (h : l ≠ []) :
    (l.set (l.length - 1) a).getLastD d = a := by
  have hpos : 0 < l.length := List.length_pos.mpr h
  have hlt : l.length - 1 < l.length := Nat.sub_lt hpos Nat.one_pos
  rw [List.getLastD_eq_getLast?, List.getLast?_eq_getElem?, List.length_set,
    List.getElem?_set_self hlt]
  rfl

/-- Updating the final entry of a list with at least two entries leaves
the head unchanged. -/
theorem headD_set_last {α : Type} (l : List α) (a d : α) (h : 1 < l.length) :
    (l.set (l.length - 1) a).headD d = l.headD d := by
  have hne : l.length - 1 ≠ 0 := by omega
  rw [List.headD_eq_head?_getD, List.headD_eq_head?_getD,
    List.head?_eq_getElem?, List.head?_eq_getElem?,
    List.getElem?_set_ne hne]

/-- The `Close` column after the jitter step, explicitly. -/
theorem simulateJitter_Close (df : EnrichedSeries) (u : ℚ) :
    (simulateJitter df u).Close =
      df.Close.set (df.Close.length - 1) (df.Close.getLastD 0 * (1 + u)) := rfl

/-- The `% Change` column after the jitter step, explicitly. -/
theorem simulateJitter_percentChange (df : EnrichedSeries) (u : ℚ) :
    (simulateJitter df u).percentChange =
      df.percentChange.set (df.percentChange.length - 1)
        (some ((df.Close.getLastD 0 * (1 + u) -
          (df.Close.set (df.Close.length - 1)
            (df.Close.getLastD 0 * (1 + u))).headD 0) /
          (df.Close.set (df.Close.length - 1)
            (df.Close.getLastD 0 * (1 + u))).headD 0 * 100)) := rfl

/-- C2: after the jitter step, the final `% Change` entry equals
`(jittered_close - close[0]) / close[0] * 100`, where `close[0]` is the
first bar's close of the (post-jitter) series — the session's first bar,
not the previous bar; with at least two bars that first close is exactly
the pre-jitter first close. -/
theorem jitter_pct_baseline (bars : RawSeries) (u : ℚ) (h : bars.Close ≠ []) :
    (simulateJitter (fetch_data bars) u).percentChange.getLastD none =
      some (((simulateJitter (fetch_data bars) u).Close.getLastD 0 -
        (simulateJitter (fetch_data bars) u).Close.headD 0) /
        (simulateJitter (fetch_data bars) u).Close.headD 0 * 100) ∧
    (1 < bars.Close.length →
      (simulateJitter (fetch_data bars) u).Close.headD 0 = bars.Close.headD 0) := by
  have hFC : (fetch_data bars).Close ≠ [] := h
  have hpct : (fetch_data bars).percentChange ≠ [] := by
    apply List.ne_nil_of_length_pos
    rw [fetch_percentChange_length]
    exact List.length_pos.mpr h
  constructor
  · rw [simulateJitter_percentChange, simulateJitter_Close,
      getLastD_set_last _ _ _ hpct, getLastD_set_last _ _ _ hFC]
  · intro h2
    rw [simulateJitter_Close, headD_set_last (fetch_data bars).Close _ 0 h2]
    rfl

/-- C2 witness: the baseline property instantiated on a concrete 3-bar
series with a concrete draw. -/
theorem jitter_pct_baseline_witness :
    (simulateJitter (fetch_data (constSeries 3)) (1/2000)).percentChange.getLastD none =
      some (((simulateJitter (fetch_data (constSeries 3)) (1/2000)).Close.getLastD 0 -
        (simulateJitter (fetch_data (constSeries 3)) (1/2000)).Close.headD 0) /
        (simulateJitter (fetch_data (constSeries 3)) (1/2000)).Close.headD 0 * 100) ∧
    (1 < (constSeries 3).Close.length →
      (simulateJitter (fetch_data (constSeries 3)) (1/2000)).Close.headD 0 =
        (constSeries 3).Close.headD 0) :=
  jitter_pct_baseline (constSeries 3) (1/2000) (by decide)

/-- C4: the jitter replaces the final close `c > 0` with `c * (1 + u)`,
which stays within one part in a thousand of `c` whenever the draw `u`
lies in `[-0.001, 0.001]`; moreover two admissible draws can produce
different outputs, so repeated runs need not agree. -/
theorem jitter_bound (bars : RawSeries) (u : ℚ) (h : bars.Close ≠ [])
    (hu1 : -(1/1000) ≤ u) (hu2 : u ≤ 1/1000)
    (hc : 0 < bars.Close.getLastD 0) :
    |(simulateJitter (fetch_data bars) u).Close.getLastD 0 -
      bars.Close.getLastD 0| ≤ bars.Close.getLastD 0 * (1/1000) ∧
    ∃ u₁ u₂ : ℚ, -(1/1000) ≤ u₁ ∧ u₁ ≤ 1/1000 ∧ -(1/1000) ≤ u₂ ∧ u₂ ≤ 1/1000 ∧
      (simulateJitter (fetch_data bars) u₁).Close.getLastD 0 ≠
        (simulateJitter (fetch_data bars) u₂).Close.getLastD 0 := by
  have hlast : ∀ v : ℚ, (simulateJitter (fetch_data bars) v).Close.getLastD 0 =
      bars.Close.getLastD 0 * (1 + v) := fun v => by
    rw [simulateJitter_Close]
    exact getLastD_set_last _ _ _ h
  constructor
  · rw [hlast u]
    have hdiff : bars.Close.getLastD 0 * (1 + u) - bars.Close.getLastD 0 =
        bars.Close.getLastD 0 * u := by ring
    rw [hdiff, abs_mul, abs_of_pos hc]
    exact mul_le_mul_of_nonneg_left (abs_le.mpr ⟨hu1, hu2⟩) hc.le
  · refine ⟨0, 1/1000, by norm_num, by norm_num, by norm_num, by norm_num, ?_⟩
    rw [hlast 0, hlast (1/1000)]
    intro heq
    have hcne : bars.Close.getLastD 0 ≠ 0 := ne_of_gt hc
    have hcancel := mul_left_cancel₀ hcne heq
    norm_num at hcancel

/-- C4 witness: the bound instantiated on a concrete 3-bar series with a
concrete admissible draw. -/
theorem jitter_bound_witness :
    |(simulateJitter (fetch_data (constSeries 3)) (1/2000)).Close.getLastD 0 -
      (constSeries 3).Close.getLastD 0| ≤ (constSeries 3).Close.getLastD 0 * (1/1000) ∧
    ∃ u₁ u₂ : ℚ, -(1/1000) ≤ u₁ ∧ u₁ ≤ 1/1000 ∧ -(1/1000) ≤ u₂ ∧ u₂ ≤ 1/1000 ∧
      (simulateJitter (fetch_data (constSeries 3)) u₁).Close.getLastD 0 ≠
        (simulateJitter (fetch_data (constSeries 3)) u₂).Close.getLastD 0 :=
  jitter_bound (constSeries 3) (1/2000) (by decide) (by norm_num) (by norm_num)
    (by decide)

/-- C9: for every series the jitter step mutates only the final close and
the final `% Change` entry: the Open/High/Low/Volume columns and both
moving-average columns are untouched whole, unconditionally, and every
close and `% Change` entry strictly before the last position is
unchanged. -/
theorem jitter_frame_effect (bars : RawSeries) (u : ℚ) (i : ℕ) :
    (simulateJitter (fetch_data bars) u).Open = (fetch_data bars).Open ∧
    (simulateJitter (fetch_data bars) u).High = (fetch_data bars).High ∧
    (simulateJitter (fetch_data bars) u).Low = (fetch_data bars).Low ∧
    (simulateJitter (fetch_data bars) u).Volume = (fetch_data bars).Volume ∧
    (simulateJitter (fetch_data bars) u).MA20 = (fetch_data bars).MA20 ∧
    (simulateJitter (fetch_data bars) u).MA50 = (fetch_data bars).MA50 ∧
    (i + 1 < bars.Close.length →
      (simulateJitter (fetch_data bars) u).Close[i]? =
        (fetch_data bars).Close[i]? ∧
      (simulateJitter (fetch_data bars) u).percentChange[i]? =
        (fetch_data bars).percentChange[i]?) := by
  have hclen : (fetch_data bars).Close.length = bars.Close.length := rfl
  refine ⟨rfl, rfl, rfl, rfl, rfl, rfl, fun h => ⟨?_, ?_⟩⟩
  · rw [simulateJitter_Close]
    exact List.getElem?_set_ne (by omega)
  · rw [simulateJitter_percentChange]
    have hplen : (fetch_data bars).percentChange.length = bars.Close.length :=
      fetch_percentChange_length bars
    exact List.getElem?_set_ne (by omega)

/-- C9 witness: the frame condition instantiated on a concrete 3-bar
series at position 0, with the before-last implication discharged. -/
theorem jitter_frame_effect_witness :
    (simulateJitter (fetch_data (constSeries 3)) (1/2000)).Open =
      (fetch_data (constSeries 3)).Open ∧
    (simulateJitter (fetch_data (constSeries 3)) (1/2000)).High =
      (fetch_data (constSeries 3)).High ∧
    (simulateJitter (fetch_data (constSeries 3)) (1/2000)).Low =
      (fetch_data (constSeries 3)).Low ∧
    (simulateJitter (fetch_data (constSeries 3)) (1/2000)).Volume =
      (fetch_data (constSeries 3)).Volume ∧
    (simulateJitter (fetch_data (constSeries 3)) (1/2000)).MA20 =
      (fetch_data (constSeries 3)).MA20 ∧
    (simulateJitter (fetch_data (constSeries 3)) (1/2000)).MA50 =
      (fetch_data (constSeries 3)).MA50 ∧
    ((simulateJitter (fetch_data (constSeries 3)) (1/2000)).Close[0]? =
      (fetch_data (constSeries 3)).Close[0]? ∧
    (simulateJitter (fetch_data (constSeries 3)) (1/2000)).percentChange[0]? =
      (fetch_data (constSeries 3)).percentChange[0]?) :=
  ⟨(jitter_frame_effect (constSeries 3) (1/2000) 0).1,
   (jitter_frame_effect (constSeries 3) (1/2000) 0).2.1,
   (jitter_frame_effect (constSeries 3) (1/2000) 0).2.2.1,
   (jitter_frame_effect (constSeries 3) (1/2000) 0).2.2.2.1,
   (jitter_frame_effect (constSeries 3) (1/2000) 0).2.2.2.2.1,
   (jitter_frame_effect (constSeries 3) (1/2000) 0).2.2.2.2.2.1,
   (jitter_frame_effect (constSeries 3) (1/2000) 0).2.2.2.2.2.2 (by decide)⟩

/-- C8: when the provider returns no bars, the tick yields the
data-unavailable outcome and no insights or chart are produced — a
recognized state of the total `runTick` function, not an abort. -/
theorem empty_data_tick (bars : RawSeries) (u : ℚ) (hi lo : Option ℚ)
    (rawNews : List NewsArticle) (tp : ℚ) (h : bars.Close = []) :
    runTick bars u hi lo rawNews tp = TickOutput.dataUnavailable ∧
    (runTick bars u hi lo rawNews tp).insightsOf = none ∧
    (runTick bars u hi lo rawNews tp).chartOf = none := by
  have hempty : (fetch_data bars).Close.isEmpty = true := by
    show bars.Close.isEmpty = true
    rw [h]
    rfl
  have hrun : runTick bars u hi lo rawNews tp = TickOutput.dataUnavailable := by
    simp only [runTick, hempty, if_true]
  exact ⟨hrun, by rw [hrun]; rfl, by rw [hrun]; rfl⟩

/-- C8 witness: the empty-provider outcome on the concrete empty series. -/
theorem empty_data_tick_witness :
    runTick (constSeries 0) 0 none none [] 0 = TickOutput.dataUnavailable ∧
    (runTick (constSeries 0) 0 none none [] 0).insightsOf = none ∧
    (runTick (constSeries 0) 0 none none [] 0).chartOf = none :=
  empty_data_tick (constSeries 0) 0 none none [] 0 (by decide)

/-- C10: after filtering out records missing a title or link, the
scrolling ticker renders at most the first 5 items and the news tab at
most the first 10, each in the provider's original order. -/
theorem news_display_limits (raw : List NewsArticle) (i : ℕ) :
    (latest_news (news_data raw)).length ≤ 5 ∧
    (newsTabArticles (news_data raw)).length ≤ 10 ∧
    (i < 5 → (latest_news (news_data raw))[i]? =
      ((news_data raw)[i]?).map renderNewsLine) ∧
    (i < 10 → (newsTabArticles (news_data raw))[i]? = (news_data raw)[i]?) := by
  refine ⟨?_, ?_, ?_, ?_⟩
  · simp only [latest_news, List.length_map, List.length_take]
    omega
  · simp only [newsTabArticles, List.length_take]
    omega
  · intro h5
    simp only [latest_news]
    rw [List.getElem?_map, List.getElem?_take_of_lt h5]
  · intro h10
    simp only [newsTabArticles]
    exact List.getElem?_take_of_lt h10

/-- A concrete provider result with one well-formed article. -/
def sampleNews : List NewsArticle :=
  [{ title := some "Stocks surge on profit beat"
     link := some "https://example.com/a"
     publisher := none
     providerPublishTime := none }]

/-- C10 witness: the display limits instantiated on a concrete one-item
news list at position 0. -/
theorem news_display_limits_witness :
    (latest_news (news_data sampleNews)).length ≤ 5 ∧
    (newsTabArticles (news_data sampleNews)).length ≤ 10 ∧
    (latest_news (news_data sampleNews))[0]? =
      ((news_data sampleNews)[0]?).map renderNewsLine ∧
    (newsTabArticles (news_data sampleNews))[0]? = (news_data sampleNews)[0]? :=
  ⟨(news_display_limits sampleNews 0).1,
   (news_display_limits sampleNews 0).2.1,
   (news_display_limits sampleNews 0).2.2.1 (by decide),
   (news_display_limits sampleNews 0).2.2.2 (by decide)⟩
